import Mathlib

/-!
Verification development for the scheduled-post lifecycle engine of the
mnee-backend repository (`scheduler_service.py`).

The Python source is shallowly embedded: instants are modelled as natural
numbers counting minutes (the source stores ISO-8601 UTC strings whose
lexicographic order agrees with chronological order), the Supabase table
`scheduled_posts` is a list of rows plus a fresh-id counter, and each
service method becomes a pure Lean function from the current store (and an
environment of external collaborators) to a response and an updated store.
External collaborators (croniter, datetime parsing, LinkedIn publisher,
payments table, AI generation) are modelled by executable stand-ins that
follow their documented contracts; repository code is translated line by
line from `scheduler_service.py`.
-/

namespace Scheduler

/-! ## String primitives

Executable character-list models of the Python string methods used by the
source (`str.lower`, `str.strip`, `int`-style parsing, whitespace
splitting, `str.startswith`), defined by structural recursion so that
every definition in this file evaluates inside the kernel. -/

/-- Model of `str.lower()`. -/
def strToLower (s : String) : String :=
  ⟨s.data.map Char.toLower⟩

/-- Model of `str.strip()`: drop whitespace from both ends. -/
def strTrim (s : String) : String :=
  ⟨((s.data.dropWhile Char.isWhitespace).reverse.dropWhile Char.isWhitespace).reverse⟩

/-- Model of `str.startswith(p)`. -/
def strStartsWith (s p : String) : Bool :=
  p.data.isPrefixOf s.data

/-- Decimal parse: `some n` exactly when the string is a non-empty digit
run. -/
def strToNat? (s : String) : Option Nat :=
  if s.data.isEmpty then none
  else if s.data.all Char.isDigit then
    some (s.data.foldl (fun n c => n * 10 + (c.toNat - 48)) 0)
  else none

/-- Split into maximal runs of non-space characters: the composition of
`str.split`-on-spaces with dropping empty parts. -/
def wordsAux : List Char → List Char → List String
  | [], acc => if acc.isEmpty then [] else [⟨acc.reverse⟩]
  | c :: cs, acc =>
    if c == ' ' then
      if acc.isEmpty then wordsAux cs []
      else ⟨acc.reverse⟩ :: wordsAux cs []
    else wordsAux cs (c :: acc)

def wordsOf (s : String) : List String :=
  wordsAux s.data []

/-- Python truthiness of an optional string (`None` and `""` are falsy). -/
def truthyS : Option String → Bool
  | none => false
  | some s => !s.isEmpty

/-- Python `a or b` for optional strings: keep `a` when truthy, else `b`. -/
def pyOr (a b : Option String) : Option String :=
  if truthyS a then a else b

/-- Model of `email.lower().strip()` used throughout the review subsystem. -/
def normalizeEmail (e : String) : String :=
  strTrim (strToLower e)

/-- Model of `datetime.fromisoformat` over our Nat-instant time model:
decimal numerals parse to that instant, anything else fails (raising in
Python, `none` here). -/
def parseIsoInstant (s : String) : Option Nat :=
  strToNat? s

/-! ## Cron model (collaborator stand-in for the `croniter` library)

`croniter(cron, now)` raises on a malformed expression and otherwise yields
strictly-future occurrences.  We model a five-field cron expression where a
field is `*` or a single in-range number, over a simplified calendar
(minutes since epoch, 365-day years with the usual non-leap month lengths,
day-of-week cycling mod 7).  A fuel-bounded forward search models
`get_next`; fuel exhaustion models croniter raising when no occurrence
exists in range. -/

inductive CronField where
  | star : CronField
  | num (n : Nat) : CronField
deriving Repr, DecidableEq

structure Cron where
  minute : CronField
  hour : CronField
  dom : CronField
  month : CronField
  dow : CronField
deriving Repr, DecidableEq

def parseCronField (lo hi : Nat) (s : String) : Except String CronField :=
  if s == "*" then .ok .star
  else
    match strToNat? s with
    | some n => if lo ≤ n && n ≤ hi then .ok (.num n) else .error "cron field out of range"
    | none => .error "invalid cron field"

/-- Model of `croniter.croniter(cron, ...)` construction: splitting the
expression on whitespace and validating each of the five fields; any other
shape raises (here: returns an error). -/
def croniterParse (cron : String) : Except String Cron := do
  let parts := wordsOf cron
  match parts with
  | [mi, h, d, mo, w] =>
    let mi ← parseCronField 0 59 mi
    let h ← parseCronField 0 23 h
    let d ← parseCronField 1 31 d
    let mo ← parseCronField 1 12 mo
    let w ← parseCronField 0 6 w
    return { minute := mi, hour := h, dom := d, month := mo, dow := w }
  | _ => .error "cron expression must have 5 fields"

def cronFieldMatches : CronField → Nat → Bool
  | .star, _ => true
  | .num n, v => n == v

def monthLengths : List Nat := [31, 28, 31, 30, 31, 30, 31, 31, 30, 31, 30, 31]

/-- Month (1-based) and day-of-month from a day-of-year index. -/
def monthDayOfYearDay : Nat → List Nat → Nat → Nat × Nat
  | yd, [], m => (m, yd + 1)
  | yd, len :: rest, m =>
    if yd < len then (m, yd + 1) else monthDayOfYearDay (yd - len) rest (m + 1)

def cronMatches (c : Cron) (t : Nat) : Bool :=
  let day := t / 1440
  let md := monthDayOfYearDay (day % 365) monthLengths 1
  cronFieldMatches c.minute (t % 60) &&
  cronFieldMatches c.hour (t / 60 % 24) &&
  cronFieldMatches c.dom md.2 &&
  cronFieldMatches c.month md.1 &&
  cronFieldMatches c.dow (day % 7)

/-- Fuel-bounded search for the next matching instant, starting at `t`. -/
def cronSearch (c : Cron) : Nat → Nat → Option Nat
  | _, 0 => none
  | t, fuel + 1 => if cronMatches c t then some t else cronSearch c (t + 1) fuel

/-- Two simplified years of minutes: the search horizon, modelling
croniter giving up (raising) when a rule has no reachable occurrence. -/
def searchFuel : Nat := 1051200

/-- Model of `iter.get_next(datetime)`: the first matching instant strictly
after `now`. -/
def cronGetNext (c : Cron) (now : Nat) : Option Nat :=
  cronSearch c (now + 1) searchFuel

/-! ## `SchedulerService.get_next_utc` and `get_next_occurrences`
(scheduler_service.py lines 15-41): both wrap croniter in try/except,
returning `None` / `[]` on any exception. -/

def get_next_utc (cron : String) (now : Nat) : Option Nat :=
  match croniterParse cron with
  | .error _ => none
  | .ok c => cronGetNext c now

/-- Is the cron expression rejected by croniter construction? -/
def malformedCron (cron : String) : Bool :=
  match croniterParse cron with
  | .error _ => true
  | .ok _ => false

/-- Successive `get_next` calls collecting `count` occurrences; a failure
mid-loop models the Python exception aborting the whole collection. -/
def collectOccurrences (c : Cron) : Nat → Nat → List Nat → Option (List Nat)
  | 0, _, acc => some acc.reverse
  | n + 1, t, acc =>
    match cronGetNext c t with
    | none => none
    | some nxt => collectOccurrences c n nxt (nxt :: acc)

def get_next_occurrences (cron : String) (now : Nat) (count : Nat) : List Nat :=
  match croniterParse cron with
  | .error _ => []
  | .ok c =>
    match collectOccurrences c count now [] with
    | none => []
    | some l => l

/-! ## Data model: the `scheduled_posts` table -/

/-- One row of the `scheduled_posts` table.  Column values that Python
reads with `.get(..., default)` are modelled with `Option` / list
defaults; `scheduled_at` is an instant (the source stores its ISO string). -/
structure Row where
  id : Nat
  user_id : String
  platform : String
  content : String
  scheduled_at : Nat
  status : String
  cron_expression : Option String
  review_token : Option String
  team_emails : List String
  approved_emails : List String
  review_comments : Option String
  reviewed_at : Option Nat
  image_url : Option String
  post_id : Option String
  post_url : Option String
  posted_at : Option Nat
  error_message : Option String
deriving Repr, DecidableEq

/-- The schedule store: table rows plus the server-side fresh-id counter. -/
structure DB where
  rows : List Row
  nextId : Nat
deriving Repr, DecidableEq

/-- Model of `.update(fields).eq("id", id)`: apply `f` to every row whose
id matches. -/
def dbUpdateRow (db : DB) (id : Nat) (f : Row → Row) : DB :=
  { rows := db.rows.map (fun r => if r.id == id then f r else r), nextId := db.nextId }

/-! ## `SchedulerService.create_scheduled_post`
(scheduler_service.py lines 120-276).  The response dict is modelled with
`Option` fields (a missing key is `none`).  The review-link assembly and
Slack notification (lines 240-269) only add response metadata and a
best-effort notification, and the missing-column insert retry (lines
202-229) cannot fire in a store that has all columns; both are elided. -/

structure CreateResp where
  error : Option String
  message : Option String
  schedule_id : Option Nat
  next_post_at : Option Nat
  review_token : Option String
deriving Repr, DecidableEq

def createError (e : String) : CreateResp :=
  { error := some e, message := none, schedule_id := none, next_post_at := none,
    review_token := none }

/-- Computation `content = custom_text or topic` (line 155). -/
def contentOf (custom_text : Option String) (topic : String) : String :=
  match custom_text with
  | some s => if s.isEmpty then topic else s
  | none => topic

/-- The duplicate query (line 159): same user, content, cron expression and
`pending` status. -/
def dupQuery (db : DB) (user_id content : String) (schedule : Option String) : Option Row :=
  db.rows.find? (fun r =>
    r.user_id == user_id && r.content == content &&
    r.cron_expression == schedule && r.status == "pending")

def create_scheduled_post (db : DB) (now : Nat) (newToken : String)
    (user_id topic : String) (schedule : Option String) (include_image : Bool)
    (custom_text image_url scheduled_at : Option String)
    (require_approval : Bool) (team_emails : List String) : CreateResp × DB :=
  -- Determine scheduled time (lines 136-151)
  let nextPost : Except String Nat :=
    if truthyS scheduled_at then
      match parseIsoInstant (scheduled_at.getD "") with
      | some t => .ok t
      | none => .error "Invalid scheduled_at format"
    else if truthyS schedule then
      match get_next_utc (schedule.getD "") now with
      | some t => .ok t
      | none => .error "Invalid cron expression format"
    else
      .error "Either schedule (cron) or scheduled_at (ISO datetime) is required"
  match nextPost with
  | .error e => (createError e, db)
  | .ok next_post_at =>
    let content := contentOf custom_text topic
    -- Duplicate check, recurring schedules only (lines 153-168)
    let existing : Option Row :=
      if truthyS schedule then dupQuery db user_id content schedule else none
    match existing with
    | some ex =>
      ({ error := none, message := some "Schedule already exists",
         schedule_id := some ex.id, next_post_at := some ex.scheduled_at,
         review_token := none }, db)
    | none =>
      let row : Row :=
        { id := db.nextId, user_id := user_id, platform := "linkedin",
          content := content, scheduled_at := next_post_at,
          status := if require_approval then "pending_approval" else "pending",
          cron_expression := if truthyS schedule then schedule else none,
          review_token := if require_approval then some newToken else none,
          team_emails :=
            if require_approval && !team_emails.isEmpty then team_emails else [],
          approved_emails := [], review_comments := none, reviewed_at := none,
          image_url :=
            if truthyS image_url then image_url
            else if include_image then some "__GENERATE_ON_EXECUTION__" else none,
          post_id := none, post_url := none, posted_at := none, error_message := none }
      ({ error := none, message := some "Scheduled post created successfully",
         schedule_id := some db.nextId, next_post_at := some next_post_at,
         review_token := if require_approval then some newToken else none },
       { rows := db.rows ++ [row], nextId := db.nextId + 1 })

/-! ## Public review lookups

All three public review operations locate a schedule by trying the
`review_token` column first and then falling back to the `id` column
(scheduler_service.py lines 429-443, 499-515, 596-617). -/

def findByToken (db : DB) (tok : String) : Option Row :=
  db.rows.find? (fun r => r.review_token == some tok)

def findById (db : DB) (tok : String) : Option Row :=
  db.rows.find? (fun r => toString r.id == tok)

def findByTokenOrId (db : DB) (tok : String) : Option Row :=
  match findByToken db tok with
  | some r => some r
  | none => findById db tok

/-! ## `SchedulerService.verify_review_email`
(scheduler_service.py lines 421-488). -/

structure VerifyResp where
  verified : Bool
  schedule_id : Option Nat
  error : Option String
deriving Repr, DecidableEq

def verify_review_email (db : DB) (review_token email : String) : VerifyResp :=
  match findByTokenOrId db review_token with
  | none => { verified := false, schedule_id := none, error := some "Schedule not found" }
  | some schedule =>
    if schedule.team_emails.isEmpty then
      -- no team_emails: allow access (backward compatibility)
      { verified := true, schedule_id := some schedule.id, error := none }
    else
      if (schedule.team_emails.map normalizeEmail).contains (normalizeEmail email) then
        { verified := true, schedule_id := some schedule.id, error := none }
      else
        { verified := false, schedule_id := none,
          error := some ("Email " ++ email ++ " is not authorized to review this post. Authorized emails: " ++ String.intercalate ", " schedule.team_emails) }

/-! ## `SchedulerService.get_schedule_for_review`
(scheduler_service.py lines 490-584).  The response dict is modelled with
`Option` fields: a key absent from the returned dict is `none`.  The
constant `schedule.get("topic", "")` key (the table has no topic column)
is elided. -/

structure SnapshotResp where
  error : Option String
  schedule_id : Option Nat
  content : Option String
  status : Option String
  scheduled_at : Option Nat
  image_url : Option String
  platform : Option String
  team_emails : Option (List String)
  requires_email_verification : Option Bool
  review_comments : Option String
deriving Repr, DecidableEq

def emptySnapshot : SnapshotResp :=
  { error := none, schedule_id := none, content := none, status := none,
    scheduled_at := none, image_url := none, platform := none, team_emails := none,
    requires_email_verification := none, review_comments := none }

def get_schedule_for_review (db : DB) (review_token : String) (email : Option String) :
    SnapshotResp :=
  match findByTokenOrId db review_token with
  | none =>
    { emptySnapshot with
      error := some "Schedule not found. The review link may be invalid or the post may have already been processed." }
  | some schedule =>
    let team_emails := schedule.team_emails
    let requires_email_verification := !team_emails.isEmpty
    if requires_email_verification && !truthyS email then
      { emptySnapshot with
        schedule_id := some schedule.id,
        requires_email_verification := some true,
        team_emails := some team_emails,
        error := some "Email verification required" }
    else if requires_email_verification &&
        !((team_emails.map normalizeEmail).contains (normalizeEmail (email.getD ""))) then
      { emptySnapshot with
        error := some ("Email " ++ email.getD "" ++ " is not authorized to review this post. Authorized emails: " ++ String.intercalate ", " team_emails),
        requires_email_verification := some true,
        team_emails := some team_emails }
    else if !(schedule.status == "pending_approval" || schedule.status == "pending") then
      -- bad-status branch (lines 554-566): error key plus the schedule data
      { emptySnapshot with
        schedule_id := some schedule.id,
        content := some schedule.content,
        image_url := schedule.image_url,
        scheduled_at := some schedule.scheduled_at,
        status := some schedule.status,
        platform := some schedule.platform,
        error := some ("Schedule status is " ++ schedule.status ++ ". Only pending or pending_approval posts can be reviewed.") }
    else
      { error := none,
        schedule_id := some schedule.id,
        content := some schedule.content,
        status := some schedule.status,
        scheduled_at := some schedule.scheduled_at,
        image_url := schedule.image_url,
        platform := some schedule.platform,
        team_emails := some team_emails,
        requires_email_verification := some requires_email_verification,
        review_comments := schedule.review_comments }

/-! ## `SchedulerService.review_schedule`
(scheduler_service.py lines 586-697). -/

structure SubmitResp where
  error : Option String
  success : Option Bool
  message : Option String
  schedule_id : Option Nat
  scheduled_at : Option Nat
  approvals_count : Option Nat
  total_required : Option Nat
deriving Repr, DecidableEq

def submitError (e : String) : SubmitResp :=
  { error := some e, success := none, message := none, schedule_id := none,
    scheduled_at := none, approvals_count := none, total_required := none }

def allowedReviewStatus (s : String) : Bool :=
  s == "pending_approval" || s == "pending"

def badStatusMsg (s : String) : String :=
  "Schedule found but status is " ++ s ++ ". Only pending or pending_approval posts can be reviewed."

/-- Body of `review_schedule` after the schedule has been located
(lines 622-694).  Note line 649: `update_data` sets
`"status": "pending" if not all_approved else "pending"` — the status
written is `"pending"` in both branches of that conditional. -/
def reviewFound (db : DB) (now : Nat) (schedule : Row) (action : String)
    (comments reviewer_email : Option String) : SubmitResp × DB :=
  let schedule_id := schedule.id
  let team_emails := schedule.team_emails
  let approved0 := schedule.approved_emails
  if action == "approve" then
    -- track approval by email if reviewer_email provided (lines 635-638)
    let approved_emails :=
      if truthyS reviewer_email && !team_emails.isEmpty then
        if (approved0.map normalizeEmail).contains (normalizeEmail (reviewer_email.getD ""))
        then approved0
        else approved0 ++ [reviewer_email.getD ""]
      else approved0
    -- check if all team members have approved (lines 641-645)
    let all_approved :=
      !team_emails.isEmpty &&
        (team_emails.map normalizeEmail).all
          (fun e => (approved_emails.map normalizeEmail).contains e)
    let upd : Row → Row := fun r =>
      let r := { r with status := "pending", approved_emails := approved_emails }
      if truthyS comments then { r with review_comments := comments, reviewed_at := some now }
      else r
    let db1 := dbUpdateRow db schedule_id upd
    if all_approved && !team_emails.isEmpty then
      -- second update with the same data, status again "pending" (lines 661-664)
      let db2 := dbUpdateRow db1 schedule_id upd
      ({ error := none, success := some true,
         message := some "Post approved by all team members. Will be posted at scheduled time.",
         schedule_id := some schedule_id, scheduled_at := some schedule.scheduled_at,
         approvals_count := none, total_required := none }, db2)
    else
      ({ error := none, success := some true,
         message := some
           (if !team_emails.isEmpty then
              "Post approved (" ++ toString approved_emails.length ++ "/" ++
                toString team_emails.length ++ " approvals)"
            else "Post approved and scheduled"),
         schedule_id := some schedule_id, scheduled_at := none,
         approvals_count := some approved_emails.length,
         total_required := some (if !team_emails.isEmpty then team_emails.length else 1) },
       db1)
  else if action == "reject" then
    let upd : Row → Row := fun r =>
      let r := { r with status := "rejected" }
      if truthyS comments then { r with review_comments := comments, reviewed_at := some now }
      else r
    ({ error := none, success := some true, message := some "Post rejected",
       schedule_id := some schedule_id, scheduled_at := none,
       approvals_count := none, total_required := none },
     dbUpdateRow db schedule_id upd)
  else
    (submitError "Invalid action. Use approve or reject", db)

def review_schedule (db : DB) (now : Nat) (review_token action : String)
    (comments reviewer_email : Option String) : SubmitResp × DB :=
  -- try review_token column first, status gate inside each branch (lines 596-620)
  match findByToken db review_token with
  | some schedule =>
    if !allowedReviewStatus schedule.status then
      (submitError (badStatusMsg schedule.status), db)
    else reviewFound db now schedule action comments reviewer_email
  | none =>
    match findById db review_token with
    | some schedule =>
      if !allowedReviewStatus schedule.status then
        (submitError (badStatusMsg schedule.status), db)
      else reviewFound db now schedule action comments reviewer_email
    | none => (submitError "Review token not found or already processed", db)

/-! ## Due-post executor
(`SchedulerService._check_payment` lines 701-725 and
`handle_scheduled_posts` lines 802-951).  External collaborators — the
`payments` and `linkedin_connections` tables, AI generation, the markdown
converter and the LinkedIn publisher — are supplied through an
environment record. -/

structure PaymentRow where
  user_id : String
  status : String
  service : String
deriving Repr, DecidableEq

structure Connection where
  user_id : String
  access_token : Option String
deriving Repr, DecidableEq

/-- Result dict of `LinkedInService.post_text` / `post_with_image`: a
success dict carries no `error` key (`error = none` here); a failure dict
carries only `error`. -/
structure PubResult where
  error : Option String
  post_id : Option String
  post_url : Option String
  url : Option String
deriving Repr, DecidableEq

structure Env where
  /-- whether the service was constructed with a `payment_service`
  (it always is on the `handle_scheduled_posts` path, agent.py line 80). -/
  paymentConfigured : Bool
  payments : List PaymentRow
  linkedin_connections : List Connection
  /-- `ai_service.generate_linkedin_post`: text and hashtags, or an error dict. -/
  generate_linkedin_post : String → Except String (String × List String)
  generate_image_prompt : String → String
  /-- `ai_service.generate_image prompt topic`; `none` means no image. -/
  generate_image : String → String → Option String
  /-- `utils.markdown_converter.markdown_to_linkedin`, treated as an opaque
  pure text transformation (no claim depends on its output). -/
  markdown_to_linkedin : String → String
  post_text : String → String → PubResult
  post_with_image : String → String → String → PubResult

structure PaymentCheck where
  has_payment : Bool
  error : Option String
deriving Repr, DecidableEq

/-- Translation of `SchedulerService._check_payment` (lines 701-725).  The
ordering and `limit(1)` of the query only select which verified payment
row is returned, not whether one exists. -/
def check_payment (env : Env) (user_id service : String) : PaymentCheck :=
  if !env.paymentConfigured then { has_payment := true, error := none }
  else
    match env.payments.find? (fun p =>
        p.user_id == user_id && p.status == "verified" &&
        (p.service == service || p.service == "linkedin_post_with_image")) with
    | some _ => { has_payment := true, error := none }
    | none =>
      { has_payment := false,
        error := some ("Payment required for " ++ service ++ ". Please pay before scheduling.") }

/-- Image flags for a due row (lines 822-832). -/
def needsImageGeneration (r : Row) : Bool :=
  r.image_url == some "__GENERATE_ON_EXECUTION__"

def includeImageFlag (r : Row) : Bool :=
  needsImageGeneration r ||
    (match r.image_url with
     | some u => strStartsWith u "http"
     | none => false)

def savedImageUrl (r : Row) : Option String :=
  if needsImageGeneration r then none else r.image_url

/-- Content resolution (lines 855-875): stored content longer than 200
characters is used verbatim, otherwise it is treated as a topic and
expanded by the AI collaborator, with hashtags appended. -/
def resolveFullText (env : Env) (topic : String) : Except String String :=
  if !topic.isEmpty && decide (200 < topic.length) then .ok topic
  else
    match env.generate_linkedin_post topic with
    | .error e => .error ("Post content generation failed: " ++ e)
    | .ok (text, hashtags) =>
      .ok (if !hashtags.isEmpty then text ++ "\n\n" ++ String.intercalate " " hashtags
           else text)

/-- Image resolution (lines 882-894). -/
def resolveImage (env : Env) (include_image needs_gen : Bool) (saved : Option String)
    (full_text : String) : Option String :=
  if include_image && needs_gen then
    env.generate_image (env.generate_image_prompt (full_text.take 500)) (full_text.take 200)
  else if include_image && truthyS saved then saved
  else none

/-- One publish call (lines 897-909), returning the collaborator result and
the effect recording what was sent to the Publisher. -/
inductive Effect where
  | publishText (user text : String) : Effect
  | publishImage (user text image : String) : Effect
deriving Repr, DecidableEq

def publishStep (env : Env) (user full_text : String) (include_image : Bool)
    (image_url : Option String) : PubResult × List Effect :=
  if include_image && truthyS image_url then
    (env.post_with_image user full_text (image_url.getD ""),
     [Effect.publishImage user full_text (image_url.getD "")])
  else
    (env.post_text user full_text, [Effect.publishText user full_text])

/-- The per-record body of the executor loop (lines 814-940): the updated
row together with the publish calls made for it. -/
def processDueRecord (env : Env) (now : Nat) (schedule : Row) : Row × List Effect :=
  let user_id := schedule.user_id
  let needs_gen := needsImageGeneration schedule
  let include_image := includeImageFlag schedule
  -- check payment before posting (lines 834-842)
  let payment_check := check_payment env user_id "linkedin_post"
  if !payment_check.has_payment then
    ({ schedule with
        status := "failed",
        error_message := some (payment_check.error.getD "Payment required") }, [])
  else
    match env.linkedin_connections.find? (fun c => c.user_id == user_id) with
    | none => (schedule, [])
    | some connection =>
      if !truthyS connection.access_token then (schedule, [])
      else
        match resolveFullText env schedule.content with
        | .error msg => ({ schedule with status := "failed", error_message := some msg }, [])
        | .ok t0 =>
          let full_text := env.markdown_to_linkedin t0
          let image_url := resolveImage env include_image needs_gen (savedImageUrl schedule) full_text
          let pub := publishStep env user_id full_text include_image image_url
          if pub.1.error.isSome then
            ({ schedule with status := "failed", error_message := pub.1.error }, pub.2)
          else
            let post_url := pyOr pub.1.post_url pub.1.url
            let base : Row :=
              { schedule with
                  posted_at := some now,
                  post_id := pub.1.post_id,
                  post_url := if truthyS post_url then post_url else schedule.post_url }
            if truthyS schedule.cron_expression then
              match get_next_utc (schedule.cron_expression.getD "") now with
              | some next_post_at =>
                ({ base with status := "pending", scheduled_at := next_post_at }, pub.2)
              | none => ({ base with status := "posted" }, pub.2)
            else
              ({ base with status := "posted" }, pub.2)

/-- The executor due-query predicate
(`status = "pending" AND scheduled_at <= now`, line 810). -/
def isDue (now : Nat) (r : Row) : Bool :=
  r.status == "pending" && decide (r.scheduled_at ≤ now)

/-- Translation of `SchedulerService.handle_scheduled_posts`: process every
due row independently and write back the per-row outcome. -/
def handle_scheduled_posts (env : Env) (now : Nat) (db : DB) : DB × List Effect :=
  let step := fun (acc : List Row × List Effect) (r : Row) =>
    if isDue now r then
      let out := processDueRecord env now r
      (acc.1 ++ [out.1], acc.2 ++ out.2)
    else (acc.1 ++ [r], acc.2)
  let out := db.rows.foldl step ([], [])
  ({ rows := out.1, nextId := db.nextId }, out.2)

/-! ## Fixture templates shared by concrete instantiations -/

def baseRow : Row :=
  { id := 0, user_id := "", platform := "linkedin", content := "",
    scheduled_at := 0, status := "pending", cron_expression := none,
    review_token := none, team_emails := [], approved_emails := [],
    review_comments := none, reviewed_at := none, image_url := none,
    post_id := none, post_url := none, posted_at := none, error_message := none }

def okPub : PubResult :=
  { error := none, post_id := some "pid", post_url := some "https://p.example/1", url := none }

def baseEnv : Env :=
  { paymentConfigured := true, payments := [], linkedin_connections := [],
    generate_linkedin_post := fun t => .ok (t, []),
    generate_image_prompt := fun s => s,
    generate_image := fun _ _ => none,
    markdown_to_linkedin := fun s => s,
    post_text := fun _ _ => okPub,
    post_with_image := fun _ _ _ => okPub }

/-- A `pending_approval` schedule with two required reviewers and no
approvals yet. -/
def c1Row : Row := { baseRow with
  id := 1
  user_id := "u"
  content := "post"
  scheduled_at := 100
  status := "pending_approval"
  review_token := some "tok1"
  team_emails := ["a@x.com", "b@x.com"] }

/-- A due pending row owned by a user with no verified payment. -/
def c2Row : Row := { baseRow with
  id := 5
  user_id := "u1"
  content := "hi"
  scheduled_at := 3 }

/-- Executor environment where payment passes and publishing succeeds. -/
def c3Env : Env := { baseEnv with
  paymentConfigured := false
  linkedin_connections := [⟨"u1", some "tk"⟩] }

/-- A due pending recurring row. -/
def c3Row : Row := { c2Row with cron_expression := some "* * * * *" }

/-- An existing pending recurring schedule, the dedup target. -/
def c5Row : Row := { baseRow with
  id := 7
  user_id := "u"
  content := "topic"
  cron_expression := some "* * * * *"
  status := "pending" }

/-- A `pending_approval` schedule whose review token differs from its id. -/
def c6Row : Row := { baseRow with
  id := 9
  content := "c6"
  status := "pending_approval"
  review_token := some "realtoken" }

/-- A schedule in terminal status `posted` holding private content. -/
def c7Row : Row := { baseRow with
  id := 3
  content := "secret"
  status := "posted"
  review_token := some "tok7" }

/-- A `pending_approval` schedule about to be rejected. -/
def c8Row : Row := { baseRow with
  id := 2
  status := "pending_approval"
  review_token := some "tok8" }

/-- A `pending_approval` schedule with one required reviewer pending. -/
def c9Row : Row := { baseRow with
  id := 4
  status := "pending_approval"
  review_token := some "tok9"
  team_emails := ["a@x.com", "b@x.com"] }

/-! # Helper lemmas -/

theorem find?_singleton {α : Type} (p : α → Bool) (a : α) :
    [a].find? p = if p a then some a else none := by
  cases h : p a <;> simp [List.find?, h]

theorem cronSearch_le (c : Cron) :
    ∀ (fuel t r : Nat), cronSearch c t fuel = some r → t ≤ r := by
  intro fuel
  induction fuel with
  | zero => intro t r h; simp [cronSearch] at h
  | succ n ih =>
    intro t r h
    simp only [cronSearch] at h
    split at h
    · injection h with h
      omega
    · exact Nat.le_of_succ_le (ih (t + 1) r h)

/-- The library contract behind claim C3: a computed next occurrence is
strictly in the future. -/
theorem get_next_utc_lt {cron : String} {now t : Nat}
    (h : get_next_utc cron now = some t) : now < t := by
  unfold get_next_utc at h
  split at h
  · exact absurd h (by simp)
  · exact Nat.lt_of_succ_le (cronSearch_le _ _ _ _ h)

/-! # Claims -/

/-- Claim C1 (code bug, scheduler_service.py line 649): on a
`pending_approval` schedule requiring reviewers `a@x.com` and `b@x.com`, a
single approve call from `a@x.com` already stores status `"pending"` —
`update_data` assigns `"pending" if not all_approved else "pending"`, the
same value in both branches — even though only one of the two required
reviewers appears in `approved_emails` (the response itself still reports
1/2 approvals).  The claim (and the spec) say the status must remain
`pending_approval` until every required reviewer has approved. -/
theorem claim_C1_partial_approval_already_sets_pending :
    ((review_schedule ⟨[c1Row], 2⟩ 50 "tok1" "approve" none (some "a@x.com")).2.rows.map
        Row.status = ["pending"]) ∧
    ((review_schedule ⟨[c1Row], 2⟩ 50 "tok1" "approve" none (some "a@x.com")).2.rows.map
        Row.approved_emails = [["a@x.com"]]) ∧
    ((review_schedule ⟨[c1Row], 2⟩ 50 "tok1" "approve" none (some "a@x.com")).1.approvals_count
      = some 1) ∧
    ((review_schedule ⟨[c1Row], 2⟩ 50 "tok1" "approve" none (some "a@x.com")).1.total_required
      = some 2) := by
  decide

/-- Claim C10: for every cron rule string rejected by croniter
construction, `get_next_utc` returns `none` and `get_next_occurrences`
returns `[]` (both wrap croniter in try/except, so no exception reaches the
caller), and `create_scheduled_post` surfaces the `none` result of
create-time resolution as the validation error
`"Invalid cron expression format"` without inserting a record. -/
theorem claim_C10_malformed_cron_fails_soft
    (s : String) (now count : Nat) (hbad : malformedCron s = true) :
    get_next_utc s now = none ∧
    get_next_occurrences s now count = [] ∧
    (∀ (db : DB) (tok user topic : String) (include_image : Bool)
       (custom_text image_url : Option String) (require_approval : Bool)
       (team_emails : List String),
       s.isEmpty = false →
       create_scheduled_post db now tok user topic (some s) include_image
         custom_text image_url none require_approval team_emails =
         (createError "Invalid cron expression format", db)) := by
  cases hp : croniterParse s with
  | ok c => simp [malformedCron, hp] at hbad
  | error e =>
    refine ⟨by simp [get_next_utc, hp], by simp [get_next_occurrences, hp], ?_⟩
    intro db tok user topic include_image custom_text image_url require_approval team_emails hne
    simp [create_scheduled_post, get_next_utc, hp, truthyS, hne]

/-- Claim C10 witness: the concrete malformed rule `"not a cron"`. -/
theorem claim_C10_witness :
    get_next_utc "not a cron" 0 = none ∧
    get_next_occurrences "not a cron" 0 3 = [] ∧
    create_scheduled_post ⟨[], 0⟩ 0 "tk" "u" "t" (some "not a cron") false none none none
      false [] = (createError "Invalid cron expression format", ⟨[], 0⟩) := by
  have h := claim_C10_malformed_cron_fails_soft "not a cron" 0 3 (by decide)
  exact ⟨h.1, h.2.1, h.2.2 ⟨[], 0⟩ "tk" "u" "t" false none none false [] (by decide)⟩

/-- Claim C2: a due record whose owner fails the payment check (no
verified payment row; the check can only fail when the payment service is
configured, which it always is on the executor path, agent.py line 80) is
updated to status `failed` with the payment-required error message, and no
publish call is made for it. -/
theorem claim_C2_unpaid_due_record_fails_without_publish
    (env : Env) (now : Nat) (r : Row)
    (hpay : (check_payment env r.user_id "linkedin_post").has_payment = false) :
    processDueRecord env now r =
      ({ r with
          status := "failed",
          error_message := some "Payment required for linkedin_post. Please pay before scheduling." },
       []) := by
  have hc : check_payment env r.user_id "linkedin_post" =
      { has_payment := false,
        error := some "Payment required for linkedin_post. Please pay before scheduling." } := by
    by_cases hcfg : env.paymentConfigured
    · cases hfind : env.payments.find? (fun p =>
          p.user_id == r.user_id && p.status == "verified" &&
          (p.service == "linkedin_post" || p.service == "linkedin_post_with_image")) with
      | some p => simp [check_payment, hcfg, hfind] at hpay
      | none => simp [check_payment, hcfg, hfind]
    · simp [check_payment, hcfg] at hpay
  simp [processDueRecord, hc]

/-- Claim C2 witness: a configured environment with an empty payments
table and a due record owned by `u1`. -/
theorem claim_C2_witness :
    (check_payment baseEnv "u1" "linkedin_post").has_payment = false ∧
    processDueRecord baseEnv 5 c2Row =
      ({ c2Row with
          status := "failed",
          error_message := some "Payment required for linkedin_post. Please pay before scheduling." },
       []) :=
  ⟨rfl, claim_C2_unpaid_due_record_fails_without_publish baseEnv 5 c2Row rfl⟩

/-- Claim C3: a due pending record that passes the payment check, has a
usable LinkedIn connection, resolves its content, and publishes without
error is finalized as follows: with a truthy `cron_expression` whose next
occurrence exists, `scheduled_at` is advanced to that strictly-future
instant and the status is reset to `pending`; when the rule yields no
occurrence, or there is no rule, the status becomes `posted`.  `posted_at`
is recorded in every successful case. -/
theorem claim_C3_success_rearms_recurring_or_finalizes
    (env : Env) (now : Nat) (r : Row) (conn : Connection) (t0 : String)
    (hpay : (check_payment env r.user_id "linkedin_post").has_payment = true)
    (hconn : env.linkedin_connections.find? (fun c => c.user_id == r.user_id) = some conn)
    (htok : truthyS conn.access_token = true)
    (hgen : resolveFullText env r.content = .ok t0)
    (hpub : (publishStep env r.user_id (env.markdown_to_linkedin t0) (includeImageFlag r)
        (resolveImage env (includeImageFlag r) (needsImageGeneration r) (savedImageUrl r)
          (env.markdown_to_linkedin t0))).1.error = none) :
    ((truthyS r.cron_expression = true →
        (∀ nxt, get_next_utc (r.cron_expression.getD "") now = some nxt →
           (processDueRecord env now r).1.status = "pending" ∧
           (processDueRecord env now r).1.scheduled_at = nxt ∧ now < nxt) ∧
        (get_next_utc (r.cron_expression.getD "") now = none →
           (processDueRecord env now r).1.status = "posted")) ∧
      (truthyS r.cron_expression = false →
        (processDueRecord env now r).1.status = "posted")) ∧
    (processDueRecord env now r).1.posted_at = some now := by
  simp only [processDueRecord, hpay, hconn, htok, hgen, Bool.not_true, Bool.false_eq_true,
    if_false, ite_false]
  simp only [hpub, Option.isSome_none, Bool.false_eq_true, if_false, ite_false]
  constructor
  · constructor
    · intro hcron
      simp only [hcron, if_true, ite_true]
      constructor
      · intro nxt hnxt
        rw [hnxt]
        exact ⟨rfl, rfl, get_next_utc_lt hnxt⟩
      · intro hnone
        rw [hnone]
    · intro hcron
      simp only [hcron, Bool.false_eq_true, if_false, ite_false]
  · by_cases hcron : truthyS r.cron_expression
    · simp only [hcron, if_true, ite_true]
      cases hnxt : get_next_utc (r.cron_expression.getD "") now <;> simp
    · simp only [hcron, Bool.false_eq_true, if_false, ite_false]

/-- Claim C3 witness: a due every-minute recurring record published at
instant 0 is re-armed to the strictly-future instant 1 with status
`pending`. -/
theorem claim_C3_witness :
    (processDueRecord c3Env 0 c3Row).1.status = "pending" ∧
    (processDueRecord c3Env 0 c3Row).1.scheduled_at = 1 ∧ (0 : Nat) < 1 := by
  have h := claim_C3_success_rearms_recurring_or_finalizes c3Env 0 c3Row
    ⟨"u1", some "tk"⟩ "hi" rfl rfl rfl rfl rfl
  exact (h.1.1 rfl).1 1 rfl

/-- Claim C4 counterexample: a create call providing BOTH a cron rule and
a one-time timestamp is not rejected — the record is inserted with
`scheduled_at` parsed from the timestamp and the cron rule stored
(lines 137-151 take the `scheduled_at` branch first; line 179 stores the
rule whenever it is truthy).  The claim says such a call is rejected with
a validation error and no record is inserted. -/
theorem claim_C4_counterexample :
    ((create_scheduled_post ⟨[], 0⟩ 0 "tk" "u" "topic" (some "* * * * *") false none none
        (some "100") false []).1.error = none) ∧
    ((create_scheduled_post ⟨[], 0⟩ 0 "tk" "u" "topic" (some "* * * * *") false none none
        (some "100") false []).2.rows.map (fun r => (r.scheduled_at, r.cron_expression)) =
      [(100, some "* * * * *")]) := by
  decide

/-- Claim C4 (amended): a create call providing neither a cron rule nor a
one-time timestamp is rejected with a validation error and no record is
inserted; a call providing both is accepted — the record is created with
`scheduled_at` parsed from the one-time timestamp and the cron rule
stored. -/
theorem claim_C4_amended (db : DB) (now : Nat) (tok user topic : String)
    (include_image : Bool) (custom_text image_url : Option String)
    (require_approval : Bool) (team_emails : List String) :
    (∀ schedule scheduled_at, truthyS scheduled_at = false → truthyS schedule = false →
       create_scheduled_post db now tok user topic schedule include_image custom_text
         image_url scheduled_at require_approval team_emails =
       (createError "Either schedule (cron) or scheduled_at (ISO datetime) is required", db)) ∧
    (∀ (c s : String) (t : Nat), c.isEmpty = false → s.isEmpty = false →
       parseIsoInstant s = some t →
       dupQuery db user (contentOf custom_text topic) (some c) = none →
       ((create_scheduled_post db now tok user topic (some c) include_image custom_text
           image_url (some s) require_approval team_emails).1.error = none ∧
        (create_scheduled_post db now tok user topic (some c) include_image custom_text
           image_url (some s) require_approval team_emails).2.rows.map
             (fun r => (r.scheduled_at, r.cron_expression)) =
          db.rows.map (fun r => (r.scheduled_at, r.cron_expression)) ++ [(t, some c)])) := by
  constructor
  · intro schedule scheduled_at h1 h2
    simp [create_scheduled_post, h1, h2]
  · intro c s t hc hs hparse hdup
    simp [create_scheduled_post, truthyS, hc, hs, hparse, hdup]

/-- Claim C4 witness for the amended statement, at both a neither-call and
a both-call on an empty store. -/
theorem claim_C4_amended_witness :
    (create_scheduled_post ⟨[], 0⟩ 0 "tk" "u" "topic" none false none none none false [] =
      (createError "Either schedule (cron) or scheduled_at (ISO datetime) is required",
       ⟨[], 0⟩)) ∧
    ((create_scheduled_post ⟨[], 0⟩ 0 "tk" "u" "topic" (some "* * * * *") false none none
        (some "100") false []).1.error = none ∧
     (create_scheduled_post ⟨[], 0⟩ 0 "tk" "u" "topic" (some "* * * * *") false none none
        (some "100") false []).2.rows.map (fun r => (r.scheduled_at, r.cron_expression)) =
       [] ++ [(100, some "* * * * *")]) := by
  have h := claim_C4_amended ⟨[], 0⟩ 0 "tk" "u" "topic" false none none false []
  exact ⟨h.1 none none rfl rfl, h.2 "* * * * *" "100" 100 rfl rfl rfl rfl⟩

/-- Claim C5: creating a recurring schedule whose owner, content and cron
rule match an existing `pending` record answers with the id of that record and
leaves the store unchanged, while one-time creates are never
de-duplicated: two identical one-time calls insert twice and return the
two distinct successive ids. -/
theorem claim_C5_dedup_recurring_not_one_time
    (db : DB) (now : Nat) (tok user topic : String) (include_image : Bool)
    (custom_text image_url : Option String) (require_approval : Bool)
    (team_emails : List String) :
    (∀ (c : String) (nxt : Nat) (ex : Row), c.isEmpty = false →
       get_next_utc c now = some nxt →
       dupQuery db user (contentOf custom_text topic) (some c) = some ex →
       create_scheduled_post db now tok user topic (some c) include_image custom_text
         image_url none require_approval team_emails =
       ({ error := none, message := some "Schedule already exists",
          schedule_id := some ex.id, next_post_at := some ex.scheduled_at,
          review_token := none }, db)) ∧
    (∀ (s : String) (t : Nat), s.isEmpty = false → parseIsoInstant s = some t →
       ((create_scheduled_post db now tok user topic none include_image custom_text
           image_url (some s) require_approval team_emails).1.schedule_id = some db.nextId ∧
        (create_scheduled_post
            (create_scheduled_post db now tok user topic none include_image custom_text
              image_url (some s) require_approval team_emails).2
            now tok user topic none include_image custom_text
            image_url (some s) require_approval team_emails).1.schedule_id =
          some (db.nextId + 1) ∧
        some db.nextId ≠ some (db.nextId + 1))) := by
  constructor
  · intro c nxt ex hc hnext hdup
    simp [create_scheduled_post, truthyS, hc, hnext, hdup]
  · intro s t hs hparse
    refine ⟨?_, ?_, by simp⟩
    · simp [create_scheduled_post, truthyS, hs, hparse]
    · simp [create_scheduled_post, truthyS, hs, hparse]

/-- Claim C5 witness: the dedup hit against an existing pending recurring
row, and two identical one-time creates yielding ids 0 and 1. -/
theorem claim_C5_witness :
    (create_scheduled_post ⟨[c5Row], 8⟩ 0 "tk" "u" "topic" (some "* * * * *") false none
        none none false [] =
      ({ error := none, message := some "Schedule already exists",
         schedule_id := some c5Row.id, next_post_at := some c5Row.scheduled_at,
         review_token := none }, ⟨[c5Row], 8⟩)) ∧
    ((create_scheduled_post ⟨[], 0⟩ 0 "tk" "u" "t" none false none none (some "50")
        false []).1.schedule_id = some 0 ∧
     (create_scheduled_post
         (create_scheduled_post ⟨[], 0⟩ 0 "tk" "u" "t" none false none none (some "50")
           false []).2
         0 "tk" "u" "t" none false none none (some "50") false []).1.schedule_id =
       some 1 ∧
     some (0 : Nat) ≠ some (0 + 1)) := by
  have h1 := (claim_C5_dedup_recurring_not_one_time ⟨[c5Row], 8⟩ 0 "tk" "u" "topic"
    false none none false []).1 "* * * * *" 1 c5Row rfl rfl rfl
  have h2 := (claim_C5_dedup_recurring_not_one_time ⟨[], 0⟩ 0 "tk" "u" "t"
    false none none false []).2 "50" 50 rfl rfl
  exact ⟨h1, h2⟩

/-- Claim C6: for a stored schedule (open review mode, reviewable status)
whose review token differs from its id, passing the database id in place
of the token makes all three public review operations locate and operate
on that schedule: email verification succeeds and names it, the review
snapshot returns it, and an approve call processes it — so a schedule id
grants the same public review access as the token. -/
theorem claim_C6_schedule_id_acts_as_review_token
    (r : Row) (n now : Nat) (email : String)
    (htok : (r.review_token == some (toString r.id)) = false)
    (hteam : r.team_emails = [])
    (hstat : r.status = "pending_approval") :
    verify_review_email ⟨[r], n⟩ (toString r.id) email =
      { verified := true, schedule_id := some r.id, error := none } ∧
    (get_schedule_for_review ⟨[r], n⟩ (toString r.id) none).schedule_id = some r.id ∧
    (get_schedule_for_review ⟨[r], n⟩ (toString r.id) none).error = none ∧
    (review_schedule ⟨[r], n⟩ now (toString r.id) "approve" none none).1.success =
      some true ∧
    (review_schedule ⟨[r], n⟩ now (toString r.id) "approve" none none).1.schedule_id =
      some r.id := by
  have hfind : findByTokenOrId ⟨[r], n⟩ (toString r.id) = some r := by
    simp [findByTokenOrId, findByToken, findById, find?_singleton, htok]
  have hft : findByToken ⟨[r], n⟩ (toString r.id) = none := by
    simp [findByToken, find?_singleton, htok]
  have hfi : findById ⟨[r], n⟩ (toString r.id) = some r := by
    simp [findById, find?_singleton]
  refine ⟨?_, ?_, ?_, ?_, ?_⟩
  · simp [verify_review_email, hfind, hteam]
  · simp [get_schedule_for_review, hfind, hteam, hstat]
  · simp [get_schedule_for_review, hfind, hteam, hstat]
  · simp [review_schedule, hft, hfi, hstat, allowedReviewStatus, reviewFound, hteam, truthyS]
  · simp [review_schedule, hft, hfi, hstat, allowedReviewStatus, reviewFound, hteam, truthyS]

/-- Claim C6 witness: the schedule with id 9 and token `"realtoken"`,
addressed as `"9"`. -/
theorem claim_C6_witness :
    verify_review_email ⟨[c6Row], 10⟩ (toString c6Row.id) "who@x.com" =
      { verified := true, schedule_id := some c6Row.id, error := none } ∧
    (get_schedule_for_review ⟨[c6Row], 10⟩ (toString c6Row.id) none).schedule_id =
      some c6Row.id ∧
    (get_schedule_for_review ⟨[c6Row], 10⟩ (toString c6Row.id) none).error = none ∧
    (review_schedule ⟨[c6Row], 10⟩ 5 (toString c6Row.id) "approve" none none).1.success =
      some true ∧
    (review_schedule ⟨[c6Row], 10⟩ 5 (toString c6Row.id) "approve" none none).1.schedule_id =
      some c6Row.id :=
  claim_C6_schedule_id_acts_as_review_token c6Row 10 5 "who@x.com" rfl rfl rfl

/-- Claim C7 counterexample: fetching a schedule in terminal status
`posted` for review does return an error outcome, but the same response
discloses the content of the schedule (`"secret"` here): lines 554-566 return
the full schedule data alongside the error key — contradicting the
assertion of the claim that the content is not disclosed. -/
theorem claim_C7_counterexample :
    ((get_schedule_for_review ⟨[c7Row], 4⟩ "tok7" none).error.isSome = true) ∧
    ((get_schedule_for_review ⟨[c7Row], 4⟩ "tok7" none).content = some "secret") := by
  decide

/-- Claim C7 (amended): for every located schedule whose status is neither
`pending_approval` nor `pending`, `get_schedule_for_review` returns an
error outcome; however, whenever the email-verification gate does not
intercept first (in particular whenever no reviewer emails are
configured), the error response also includes the content and
metadata. -/
theorem claim_C7_bad_status_errors_but_discloses
    (db : DB) (tok : String) (email : Option String) (r : Row)
    (hfind : findByTokenOrId db tok = some r)
    (hstat : (r.status == "pending_approval" || r.status == "pending") = false) :
    (get_schedule_for_review db tok email).error.isSome = true ∧
    (r.team_emails = [] →
      (get_schedule_for_review db tok email).content = some r.content ∧
      (get_schedule_for_review db tok email).schedule_id = some r.id ∧
      (get_schedule_for_review db tok email).status = some r.status) := by
  constructor
  · simp only [get_schedule_for_review, hfind]
    split
    · simp
    · split
      · simp
      · simp [hstat]
  · intro habs
    refine ⟨?_, ?_, ?_⟩ <;> simp [get_schedule_for_review, hfind, habs, hstat]

/-- Claim C7 witness for the amended statement, at the concrete `posted`
schedule. -/
theorem claim_C7_witness :
    ((get_schedule_for_review ⟨[c7Row], 4⟩ "tok7" none).error.isSome = true) ∧
    ((get_schedule_for_review ⟨[c7Row], 4⟩ "tok7" none).content = some c7Row.content ∧
     (get_schedule_for_review ⟨[c7Row], 4⟩ "tok7" none).schedule_id = some c7Row.id ∧
     (get_schedule_for_review ⟨[c7Row], 4⟩ "tok7" none).status = some c7Row.status) := by
  have h := claim_C7_bad_status_errors_but_discloses ⟨[c7Row], 4⟩ "tok7" none c7Row
    rfl rfl
  exact ⟨h.1, h.2 rfl⟩

/-- Claim C8: rejecting a `pending_approval` schedule stores status
`rejected` (recording the comments and review timestamp when comments are
given), and the rejection is terminal: a subsequent approve call on the
same token returns an error and leaves the store — in particular the
`rejected` status — unchanged. -/
theorem claim_C8_reject_is_terminal
    (r : Row) (n now now2 : Nat) (tok : String) (comments c2 e2 : Option String)
    (htok : r.review_token = some tok)
    (hstat : r.status = "pending_approval") :
    ((review_schedule ⟨[r], n⟩ now tok "reject" comments none).1.success = some true) ∧
    ((review_schedule ⟨[r], n⟩ now tok "reject" comments none).2.rows.map Row.status =
      ["rejected"]) ∧
    (truthyS comments = true →
      (review_schedule ⟨[r], n⟩ now tok "reject" comments none).2.rows.map
          Row.review_comments = [comments] ∧
      (review_schedule ⟨[r], n⟩ now tok "reject" comments none).2.rows.map
          Row.reviewed_at = [some now]) ∧
    ((review_schedule
        (review_schedule ⟨[r], n⟩ now tok "reject" comments none).2
        now2 tok "approve" c2 e2).1.error.isSome = true) ∧
    ((review_schedule
        (review_schedule ⟨[r], n⟩ now tok "reject" comments none).2
        now2 tok "approve" c2 e2).2 =
      (review_schedule ⟨[r], n⟩ now tok "reject" comments none).2) := by
  have hbeq : (r.review_token == some tok) = true := by rw [htok]; simp
  by_cases hc : truthyS comments
  · simp [review_schedule, findByToken, find?_singleton, hbeq, hstat, allowedReviewStatus,
      reviewFound, dbUpdateRow, hc, badStatusMsg, submitError]
  · simp [review_schedule, findByToken, find?_singleton, hbeq, hstat, allowedReviewStatus,
      reviewFound, dbUpdateRow, hc, badStatusMsg, submitError]

/-- Claim C8 witness: rejecting the concrete schedule with a comment, then
attempting to approve it. -/
theorem claim_C8_witness :
    ((review_schedule ⟨[c8Row], 3⟩ 50 "tok8" "reject" (some "bad") none).1.success =
      some true) ∧
    ((review_schedule ⟨[c8Row], 3⟩ 50 "tok8" "reject" (some "bad") none).2.rows.map
        Row.status = ["rejected"]) ∧
    (truthyS (some "bad") = true →
      (review_schedule ⟨[c8Row], 3⟩ 50 "tok8" "reject" (some "bad") none).2.rows.map
          Row.review_comments = [some "bad"] ∧
      (review_schedule ⟨[c8Row], 3⟩ 50 "tok8" "reject" (some "bad") none).2.rows.map
          Row.reviewed_at = [some 50]) ∧
    ((review_schedule
        (review_schedule ⟨[c8Row], 3⟩ 50 "tok8" "reject" (some "bad") none).2
        60 "tok8" "approve" none none).1.error.isSome = true) ∧
    ((review_schedule
        (review_schedule ⟨[c8Row], 3⟩ 50 "tok8" "reject" (some "bad") none).2
        60 "tok8" "approve" none none).2 =
      (review_schedule ⟨[c8Row], 3⟩ 50 "tok8" "reject" (some "bad") none).2) :=
  claim_C8_reject_is_terminal c8Row 3 50 60 "tok8" (some "bad") none none rfl rfl

/-- Claim C9: approving twice with the same reviewer email (compared
case-insensitively after trimming) on a schedule with required reviewers
records the email once — after both calls `approved_emails` holds exactly
one entry normalizing to that reviewer — and the second call reports the
same `approvals_count` as the first. -/
theorem claim_C9_approve_idempotent_per_email
    (r : Row) (n now now2 : Nat) (tok e : String)
    (htok : r.review_token = some tok)
    (hstat : r.status = "pending_approval")
    (hteam : r.team_emails.isEmpty = false)
    (he : e.isEmpty = false)
    (hfresh : (r.approved_emails.map normalizeEmail).contains (normalizeEmail e) = false) :
    ((review_schedule ⟨[r], n⟩ now tok "approve" none (some e)).2.rows.map
        Row.approved_emails = [r.approved_emails ++ [e]]) ∧
    ((review_schedule
        (review_schedule ⟨[r], n⟩ now tok "approve" none (some e)).2
        now2 tok "approve" none (some e)).2.rows.map
        Row.approved_emails = [r.approved_emails ++ [e]]) ∧
    ((review_schedule
        (review_schedule ⟨[r], n⟩ now tok "approve" none (some e)).2
        now2 tok "approve" none (some e)).1.approvals_count =
      (review_schedule ⟨[r], n⟩ now tok "approve" none (some e)).1.approvals_count) ∧
    (((r.approved_emails ++ [e]).map normalizeEmail).count (normalizeEmail e) = 1) := by
  have hbeq : (r.review_token == some tok) = true := by rw [htok]; simp
  have hmem : (((r.approved_emails ++ [e]).map normalizeEmail).contains
      (normalizeEmail e)) = true := by simp
  have hcount : ((r.approved_emails ++ [e]).map normalizeEmail).count (normalizeEmail e)
      = 1 := by
    have h0 : (r.approved_emails.map normalizeEmail).count (normalizeEmail e) = 0 := by
      rw [List.count_eq_zero]
      simpa using hfresh
    simp [List.count_append, h0]
  have hfreshP : ¬∃ a ∈ r.approved_emails, normalizeEmail a = normalizeEmail e := by
    simpa using hfresh
  have hdb1 : (review_schedule ⟨[r], n⟩ now tok "approve" none (some e)).2 =
      ⟨[{ r with status := "pending", approved_emails := r.approved_emails ++ [e] }], n⟩ := by
    simp [review_schedule, findByToken, find?_singleton, hbeq, hstat, allowedReviewStatus,
      reviewFound, dbUpdateRow, truthyS, he, hteam, hfreshP]
    split <;> simp
  refine ⟨?_, ?_, ?_, hcount⟩
  · rw [hdb1]
    simp
  · rw [hdb1]
    simp [review_schedule, findByToken, find?_singleton, hbeq, allowedReviewStatus,
      reviewFound, dbUpdateRow, truthyS, he, hteam]
    split <;> simp
  · rw [hdb1]
    simp [review_schedule, findByToken, find?_singleton, hbeq, hstat, allowedReviewStatus,
      reviewFound, dbUpdateRow, truthyS, he, hteam, hfreshP]

/-- Claim C9 witness: two approvals from `a@x.com` on a two-reviewer
schedule with no prior approvals. -/
theorem claim_C9_witness :
    ((review_schedule ⟨[c9Row], 5⟩ 50 "tok9" "approve" none (some "a@x.com")).2.rows.map
        Row.approved_emails = [c9Row.approved_emails ++ ["a@x.com"]]) ∧
    ((review_schedule
        (review_schedule ⟨[c9Row], 5⟩ 50 "tok9" "approve" none (some "a@x.com")).2
        60 "tok9" "approve" none (some "a@x.com")).2.rows.map
        Row.approved_emails = [c9Row.approved_emails ++ ["a@x.com"]]) ∧
    ((review_schedule
        (review_schedule ⟨[c9Row], 5⟩ 50 "tok9" "approve" none (some "a@x.com")).2
        60 "tok9" "approve" none (some "a@x.com")).1.approvals_count =
      (review_schedule ⟨[c9Row], 5⟩ 50 "tok9" "approve" none (some "a@x.com")).1.approvals_count) ∧
    (((c9Row.approved_emails ++ ["a@x.com"]).map normalizeEmail).count
        (normalizeEmail "a@x.com") = 1) :=
  claim_C9_approve_idempotent_per_email c9Row 5 50 60 "tok9" "a@x.com"
    rfl rfl rfl rfl rfl

end Scheduler
